import Mathlib

/-!
Verification development for the brush test-case harness
(`crates/brush-render/test_cases/generate_reference.py` — the fixture pipeline —
and `crates/brush-render/test_cases/bench.py` — the benchmark pipeline).

The Python sources are shallowly embedded: pure numeric code becomes Lean
functions over `ℝ` (or `ℚ` where the code is exactly representable), tensor
rows become lists, and the opaque differentiable backend primitives
(`gsplat.rasterization`, `gsplat.spherical_harmonics`) are modelled as
parameters or, where a claim needs their documented behaviour, modelled from
the specification with an explicit note.
-/

/-! ## Camera model (`fov_to_focal` / `basic_camera`, identical in both files) -/

/-- Source `fov_to_focal` (generate_reference.py line 56, bench.py line 39):
`0.5 * img_size / tan(0.5 * fov)`. -/
noncomputable def fov_to_focal (fov img_size : ℝ) : ℝ :=
  0.5 * img_size / Real.tan (0.5 * fov)

/-- Source `Camera` dataclass: view matrix, focal length, image size,
background color. -/
structure Camera where
  viewmat : Matrix (Fin 4) (Fin 4) ℝ
  focal : ℝ
  w : ℝ
  h : ℝ
  background : Fin 3 → ℝ

/-- The fixed camera pose `pos = (0.123, 0.456, -8.0)` used by `basic_camera`. -/
def cameraPos : Fin 3 → ℝ := ![0.123, 0.456, -8.0]

/-- Source `basic_camera` (generate_reference.py lines 59-82, bench.py lines
42-59): zero background, `fov_x = pi / 2`, view matrix written literally as
identity rotation with fourth column `-pos`, focal from `fov_to_focal`. -/
noncomputable def basic_camera (w h : ℝ) : Camera :=
  { viewmat := !![1, 0, 0, -cameraPos 0;
                  0, 1, 0, -cameraPos 1;
                  0, 0, 1, -cameraPos 2;
                  0, 0, 0, 1]
    focal := fov_to_focal (Real.pi / 2) w
    w := w
    h := h
    background := fun _ => 0 }

/-- Modelled from the spec: a homogeneous 4×4 rigid transform assembled from a
3×3 rotation block and a translation column, with bottom row `(0,0,0,1)`. -/
def homRigid (R : Matrix (Fin 3) (Fin 3) ℝ) (t : Fin 3 → ℝ) :
    Matrix (Fin 4) (Fin 4) ℝ :=
  !![R 0 0, R 0 1, R 0 2, t 0;
     R 1 0, R 1 1, R 1 2, t 1;
     R 2 0, R 2 1, R 2 2, t 2;
     0, 0, 0, 1]

/-- Modelled from the spec: the view matrix as the inverse rigid transform of
the pose — rotation transposed (here the identity) and translation negated. -/
def viewFromSpec (p : Fin 3 → ℝ) : Matrix (Fin 4) (Fin 4) ℝ :=
  homRigid (1 : Matrix (Fin 3) (Fin 3) ℝ).transpose (fun i => -(p i))

/-! ## Per-splat color post-processing (fixture vs benchmark) -/

/-- Fixture path color post-processing (generate_reference.py lines 111-112):
`colors = colors + 0.5`, with the clamp commented out. -/
def fixture_color_post (x : ℝ) : ℝ := x + 0.5

/-- Benchmark path color post-processing (bench.py lines 119-120):
`colors = colors + 0.5; colors = colors.clamp(min=0.0)`. -/
def bench_color_post (x : ℝ) : ℝ := max (x + 0.5) 0

/-! ## Opacities and the sigmoid mapping -/

/-- Source `tiny_case` line 197: `opacities = torch.rand(num_points) * 0.5 + 0.5`,
with `u` the uniform draw in `[0, 1)`. -/
def tiny_opacity (u : ℝ) : ℝ := u * 0.5 + 0.5

/-- Source `gen_basic_case` line 224: `opacities = torch.rand(num_points) * 0.5 + 0.5`. -/
def basic_opacity (u : ℝ) : ℝ := u * 0.5 + 0.5

/-- Source `gen_mix_case` line 252: `opacities = torch.rand(num_points)` — the raw
uniform draw, no floor. -/
def mix_opacity (u : ℝ) : ℝ := u

/-- `torch.sigmoid`, applied to the opacity logits before the backend call in
both pipelines (generate_reference.py line 120, bench.py line 126). -/
noncomputable def sigmoid (x : ℝ) : ℝ := 1 / (1 + Real.exp (-x))

/-! ## Quaternions -/

/-- A quaternion row (4 floats). -/
structure Quat where
  a : ℝ
  b : ℝ
  c : ℝ
  d : ℝ

/-- Squared L2 norm of a quaternion row. -/
def Quat.normSq (q : Quat) : ℝ := q.a ^ 2 + q.b ^ 2 + q.c ^ 2 + q.d ^ 2

/-- L2 norm of a quaternion row. -/
noncomputable def Quat.norm (q : Quat) : ℝ := Real.sqrt q.normSq

/-- The default `eps` of `torch.nn.functional.normalize`. -/
def normalize_eps : ℝ := 1e-12

/-- `torch.nn.functional.normalize(quats, dim=1)` on one row
(generate_reference.py line 114): divide by `max(norm, eps)`. -/
noncomputable def f_normalize (q : Quat) : Quat :=
  ⟨q.a / max q.norm normalize_eps, q.b / max q.norm normalize_eps,
   q.c / max q.norm normalize_eps, q.d / max q.norm normalize_eps⟩

lemma Quat.normSq_nonneg (q : Quat) : 0 ≤ q.normSq := by
  rw [Quat.normSq]; positivity

lemma Quat.norm_sq_eq (q : Quat) : q.norm ^ 2 = q.normSq :=
  Real.sq_sqrt q.normSq_nonneg

/-! ## Benchmark splat pool and slicing -/

/-- The golden splat-pool file contents (`bench_data.safetensors`): five
index-aligned arrays. -/
structure SplatPool where
  means : List (ℝ × ℝ × ℝ)
  scales : List (ℝ × ℝ × ℝ)
  coeffs : List (Fin 16 → ℝ × ℝ × ℝ)
  quats : List Quat
  opacities : List ℝ

/-- Source `int(means.shape[0] * point_frac)` (bench.py line 72): the floor of
pool size times the density fraction. -/
def numPoints (n : ℕ) (frac : ℚ) : ℕ := (⌊(n : ℚ) * frac⌋).toNat

/-- Scalar multiplication of a mean row (`means * mean_mult`). -/
def smul3 (m : ℝ) (v : ℝ × ℝ × ℝ) : ℝ × ℝ × ℝ := (m * v.1, m * v.2.1, m * v.2.2)

/-- Source `load_bench_tensors` (bench.py lines 69-91): slice the first
`num_points` rows of every array; the sliced means are scaled by `mean_mult`. -/
def load_bench_tensors (pool : SplatPool) (point_frac : ℚ) (mean_mult : ℝ) :
    SplatPool :=
  let n := numPoints pool.means.length point_frac
  { means := (pool.means.take n).map (smul3 mean_mult)
    scales := pool.scales.take n
    coeffs := pool.coeffs.take n
    quats := pool.quats.take n
    opacities := pool.opacities.take n }

/-- Source bench.py line 124: the `quats` argument handed to `rasterization`
inside `internal_iter` is the loaded tensor itself — no normalization step. -/
def internal_iter_quats_arg (pool : SplatPool) (point_frac : ℚ) (mean_mult : ℝ) :
    List Quat :=
  (load_bench_tensors pool point_frac mean_mult).quats

lemma take_getD {α : Type} (l : List α) (n i : ℕ) (d : α) (h : i < n) :
    (l.take n).getD i d = l.getD i d := by
  rw [List.getD_eq_getElem?_getD, List.getD_eq_getElem?_getD,
    List.getElem?_take_of_lt h]

/-! ## Spherical-harmonic color evaluation

`gsplat.rendering.spherical_harmonics` is library code outside this
repository; the evaluation is modelled from the spec. -/

/-- Modelled from the spec: the degree-0 real spherical-harmonic basis function
`Y₀⁰ = 1 / (2 √π)`, a constant of the direction. -/
noncomputable def shC0 : ℝ := 1 / (2 * Real.sqrt Real.pi)

/-- Modelled from the spec: `gsplat.rendering.spherical_harmonics(deg, dir,
coeffs)` — evaluate the real spherical-harmonic basis at the view direction and
contract with the first `(deg+1)^2` coefficients. Slot 0 of the basis is the
constant `Y₀⁰`; the higher basis functions are a parameter of the model. -/
noncomputable def spherical_harmonics (higher : ℕ → (ℝ × ℝ × ℝ) → ℝ) (deg : ℕ)
    (dir : ℝ × ℝ × ℝ) (coeffs : ℕ → ℝ) : ℝ :=
  ∑ i in Finset.range ((deg + 1) ^ 2),
    (if i = 0 then shC0 else higher i dir) * coeffs i

/-- Fixture path per-splat color (generate_reference.py lines 110-111):
degree-3 evaluation, then `+ 0.5`, no clamp. -/
noncomputable def fixture_colors (higher : ℕ → (ℝ × ℝ × ℝ) → ℝ)
    (dir : ℝ × ℝ × ℝ) (coeffs : ℕ → ℝ) : ℝ :=
  fixture_color_post (spherical_harmonics higher 3 dir coeffs)

/-- Benchmark path per-splat color (bench.py lines 118-120): degree-0
evaluation, then `+ 0.5` and a clamp at zero. -/
noncomputable def bench_colors (higher : ℕ → (ℝ × ℝ × ℝ) → ℝ)
    (dir : ℝ × ℝ × ℝ) (coeffs : ℕ → ℝ) : ℝ :=
  bench_color_post (spherical_harmonics higher 0 dir coeffs)

/-! ## Forward-mode differentiation model for the detached view directions

The fixture pipeline computes `dirs = means - camtoworlds[.., :3, 3]` and then
`dirs = dirs.detach()` before the spherical-harmonic call.  Autograd is
embedded in forward mode: every scalar carries a tangent (its directional
derivative along a chosen perturbation of the leaf inputs), `detach` zeroes the
tangent, and an opaque differentiable primitive with Jacobian rows `j…`
produces the tangent `∑ jᵢ · input-tangentᵢ`. -/

/-- A forward-mode scalar: value and tangent. -/
structure Dual where
  val : ℝ
  tan : ℝ

/-- A constant (no dependence on the leaf inputs). -/
def Dual.const (x : ℝ) : Dual := ⟨x, 0⟩

/-- Subtraction of duals. -/
def Dual.sub (p q : Dual) : Dual := ⟨p.val - q.val, p.tan - q.tan⟩

/-- Addition of duals. -/
def Dual.add (p q : Dual) : Dual := ⟨p.val + q.val, p.tan + q.tan⟩

/-- `Tensor.detach`: keep the value, cut the differentiation edge. -/
def Dual.detach (p : Dual) : Dual := ⟨p.val, 0⟩

/-- Forward-mode semantics of `gsplat.spherical_harmonics` as an opaque
differentiable primitive of a 3-vector of directions and 16 coefficients, with
value function `f` and Jacobian rows `jdir`, `jcoef` at the evaluation point. -/
def shPrimDual (f : (Fin 3 → ℝ) → (Fin 16 → ℝ) → ℝ) (jdir : Fin 3 → ℝ)
    (jcoef : Fin 16 → ℝ) (dir : Fin 3 → Dual) (coeffs : Fin 16 → Dual) : Dual :=
  ⟨f (fun i => (dir i).val) (fun i => (coeffs i).val),
   (∑ i, jdir i * (dir i).tan) + ∑ i, jcoef i * (coeffs i).tan⟩

/-- Fixture color stage, generate_reference.py lines 105-111: `dirs = means -
eye`, `dirs = dirs.detach()`, then the spherical-harmonic primitive and the
`+ 0.5` offset.  The camera eye is a constant (the view matrix never requires
gradients). -/
def fixture_colors_dual (f : (Fin 3 → ℝ) → (Fin 16 → ℝ) → ℝ) (jdir : Fin 3 → ℝ)
    (jcoef : Fin 16 → ℝ) (means : Fin 3 → Dual) (eye : Fin 3 → ℝ)
    (coeffs : Fin 16 → Dual) : Dual :=
  (shPrimDual f jdir jcoef
      (fun i => ((means i).sub (Dual.const (eye i))).detach) coeffs).add
    (Dual.const 0.5)

/-- The rest of the fixture pass — rasterization and the mean-squared-error
loss — as one opaque differentiable primitive of the means (their direct
argument to `rasterization`) and the evaluated color, with value function `g`
and Jacobian rows `jm`, `jcol`. -/
def lossPrimDual (g : (Fin 3 → ℝ) → ℝ → ℝ) (jm : Fin 3 → ℝ) (jcol : ℝ)
    (means : Fin 3 → Dual) (color : Dual) : Dual :=
  ⟨g (fun i => (means i).val) color.val,
   (∑ i, jm i * (means i).tan) + jcol * color.tan⟩

/-- The fixture loss as a function of the leaf inputs: the color path feeds the
loss primitive alongside the direct means argument. -/
def fixture_loss_dual (f : (Fin 3 → ℝ) → (Fin 16 → ℝ) → ℝ) (jdir : Fin 3 → ℝ)
    (jcoef : Fin 16 → ℝ) (g : (Fin 3 → ℝ) → ℝ → ℝ) (jm : Fin 3 → ℝ) (jcol : ℝ)
    (means : Fin 3 → Dual) (eye : Fin 3 → ℝ) (coeffs : Fin 16 → Dual) : Dual :=
  lossPrimDual g jm jcol means (fixture_colors_dual f jdir jcoef means eye coeffs)

/-! ## Fixture loss and its reference target -/

/-- An RGB pixel. -/
structure Px3 where
  r : ℝ
  g : ℝ
  b : ℝ

/-- An RGBA pixel. -/
structure Px4 where
  r : ℝ
  g : ℝ
  b : ℝ
  a : ℝ

/-- Source generate_reference.py lines 86-87: the loss target is the reference
RGB image with a zero channel concatenated as alpha
(`concat([crab_img, zeros_like(crab_img)[..., 0:1]])`). -/
def crab_target (rgb : List Px3) : List Px4 :=
  rgb.map fun p => ⟨p.r, p.g, p.b, 0⟩

/-- Source line 144: `out_img = concat([render_colors[0], render_alphas[0]])`,
pixelwise concatenation of the color and alpha images. -/
def concat_rgba (colors : List Px3) (alphas : List ℝ) : List Px4 :=
  List.zipWith (fun p al => ⟨p.r, p.g, p.b, al⟩) colors alphas

/-- The squared elementwise difference of two RGBA pixels. -/
def sqDiff (p t : Px4) : ℝ :=
  (p.r - t.r) ^ 2 + (p.g - t.g) ^ 2 + (p.b - t.b) ^ 2 + (p.a - t.a) ^ 2

/-- Source line 149: `loss = ((out_img - crab_img) ** 2).mean()` — the mean
runs over all `4·H·W` entries of the 4-channel difference. -/
noncomputable def fixture_loss (out target : List Px4) : ℝ :=
  (List.zipWith sqDiff out target).sum / (4 * (out.length : ℝ))

/-- Source lines 149-150: the scalar from which `loss.backward()` is
triggered, as a function of the backend images and the reference RGB. -/
noncomputable def execute_test_backward_scalar (renderColors : List Px3) (renderAlphas : List ℝ)
    (rgb : List Px3) : ℝ :=
  fixture_loss (concat_rgba renderColors renderAlphas) (crab_target rgb)

/-- The flat channel list of an RGBA image. -/
def flat4 (l : List Px4) : List ℝ := l.flatMap fun p => [p.r, p.g, p.b, p.a]

/-- Modelled from the spec: mean squared error between two flat value lists of
the same length. -/
noncomputable def mseSpec (xs ys : List ℝ) : ℝ :=
  (List.zipWith (fun x y => (x - y) ^ 2) xs ys).sum / (xs.length : ℝ)

lemma flat4_length (l : List Px4) : (flat4 l).length = 4 * l.length := by
  induction l with
  | nil => rfl
  | cons p tl ih => simp [flat4] at ih ⊢; omega

lemma flat4_zip_sum (o t : List Px4) (h : o.length = t.length) :
    (List.zipWith (fun x y => (x - y) ^ 2) (flat4 o) (flat4 t)).sum =
      (List.zipWith sqDiff o t).sum := by
  induction o generalizing t with
  | nil => cases t with
    | nil => rfl
    | cons q tq => simp at h
  | cons p tl ih =>
    cases t with
    | nil => simp at h
    | cons q tq =>
      simp only [List.length_cons, Nat.succ_inj] at h
      simp only [flat4, List.flatMap_cons, List.cons_append, List.nil_append,
        List.zipWith_cons_cons, List.sum_cons, sqDiff]
      rw [← flat4, ← flat4, ih tq h]
      ring

/-! ## Benchmark sweep, timing protocol, and per-sample state effects -/

/-- Source bench.py line 95. -/
def BENCH_DENSITIES : List ℚ := [0.1, 0.2, 0.3, 0.4, 0.5, 0.6, 0.7, 0.8, 0.9, 1.0]

/-- Source bench.py line 96. -/
def DENSE_MULT : ℝ := 0.25

/-- Source bench.py line 98. -/
def TARGET_SAMPLE_COUNT : ℕ := 40

/-- Source bench.py line 99. -/
def INTERNAL_ITERS : ℕ := 4

/-- The observable events of one `measure_iter` call. -/
inductive TimedEvent
  | clockStart
  | internalIt
  | deviceSync
  | clockStop
  deriving DecidableEq, BEq

/-- Source `measure_iter` (bench.py lines 149-155): read the monotonic clock,
run `INTERNAL_ITERS` internal iterations, synchronize the device, read the
clock again. -/
def measure_iter_events : List TimedEvent :=
  .clockStart :: (List.replicate INTERNAL_ITERS .internalIt ++
    [.deviceSync, .clockStop])

/-- Modelled from the spec: `np.median` — sort the samples; an odd count takes
the middle element, an even count the mean of the two middle elements. -/
def npMedian (l : List ℚ) : ℚ :=
  if l.length % 2 = 1 then (List.insertionSort (· ≤ ·) l).getD (l.length / 2) 0
  else ((List.insertionSort (· ≤ ·) l).getD (l.length / 2 - 1) 0 +
    (List.insertionSort (· ≤ ·) l).getD (l.length / 2) 0) / 2

/-- Source bench.py lines 157-158: collect `TARGET_SAMPLE_COUNT` samples of
`measure_iter` and report their median; `sampleTime i` is the duration of the
`i`-th sample. -/
def bench_general_stat (sampleTime : ℕ → ℚ) : ℚ :=
  npMedian ((List.range TARGET_SAMPLE_COUNT).map sampleTime)

/-- Source bench.py lines 165-174: the sweep loop — forward first, then
backward, each over the base, dense and high-resolution regimes, each mapping
the density list through `bench_general`.  `timeOf point_frac mean_mult w h
calc_grads i` is the duration of the `i`-th timed sample of that
configuration. -/
def bench_times (timeOf : ℚ → ℝ → ℕ → ℕ → Bool → ℕ → ℚ) :
    List (String × List ℚ) :=
  [("fwd_base", BENCH_DENSITIES.map fun d =>
      bench_general_stat (timeOf d 1 512 512 false)),
   ("fwd_dense", BENCH_DENSITIES.map fun d =>
      bench_general_stat (timeOf d DENSE_MULT 512 512 false)),
   ("fwd_hd", BENCH_DENSITIES.map fun d =>
      bench_general_stat (timeOf d 1 1024 1024 false)),
   ("bwd_base", BENCH_DENSITIES.map fun d =>
      bench_general_stat (timeOf d 1 512 512 true)),
   ("bwd_dense", BENCH_DENSITIES.map fun d =>
      bench_general_stat (timeOf d DENSE_MULT 512 512 true)),
   ("bwd_hd", BENCH_DENSITIES.map fun d =>
      bench_general_stat (timeOf d 1 1024 1024 true))]

/-- The five `.grad` buffers of the leaf tensors, one abstract scalar each. -/
structure GradBufs where
  means : ℚ
  scales : ℚ
  coeffs : ℚ
  quats : ℚ
  opacities : ℚ
  deriving DecidableEq

/-- Pointwise sum of gradient buffers. -/
def GradBufs.add (x y : GradBufs) : GradBufs :=
  ⟨x.means + y.means, x.scales + y.scales, x.coeffs + y.coeffs,
   x.quats + y.quats, x.opacities + y.opacities⟩

/-- A natural multiple of a gradient-buffer bundle. -/
def GradBufs.smulN (k : ℕ) (y : GradBufs) : GradBufs :=
  ⟨k * y.means, k * y.scales, k * y.coeffs, k * y.quats, k * y.opacities⟩

/-- Source `internal_iter` (bench.py lines 112-147) acting on the gradient
buffers: when `calc_grads` is set, `loss.backward()` adds the backend's
gradient contribution `dg` to every leaf `.grad` buffer (PyTorch accumulates
and the harness never zeroes them); in forward mode the buffers are
untouched. -/
def internal_iter_grads (calc_grads : Bool) (dg : GradBufs) (g : GradBufs) :
    GradBufs :=
  if calc_grads then g.add dg else g

/-- Source `measure_iter` (bench.py lines 149-155) acting on the gradient
buffers: one timed sample runs `INTERNAL_ITERS` internal iterations. -/
def measure_iter_grads (calc_grads : Bool) (dg : GradBufs) (g : GradBufs) :
    GradBufs :=
  (internal_iter_grads calc_grads dg)^[INTERNAL_ITERS] g

/-- Source bench.py line 157 acting on the gradient buffers: `k` consecutive
timed samples. -/
def samples_grads (calc_grads : Bool) (dg : GradBufs) (g : GradBufs) (k : ℕ) :
    GradBufs :=
  (measure_iter_grads calc_grads dg)^[k] g

/-- The tensor-loading / sampling order of one `bench_general` call: the
source tensors are loaded and sliced once (line 104), before the sampling
loop (line 157). -/
inductive BenchOp
  | loadTensors
  | timedSample
  deriving DecidableEq, BEq

/-- Source `bench_general` (bench.py lines 101-160) as an operation trace. -/
def bench_general_ops : List BenchOp :=
  .loadTensors :: List.replicate TARGET_SAMPLE_COUNT .timedSample

/-- Claim C8: for every field-of-view angle and image dimension the camera
constructor computes `focal_length = 0.5 * d / tan(0.5 * fov)` (with
`basic_camera` instantiating it at `fov = π/2` and the width), and for every
width/height it builds the view matrix as the identity-rotation rigid inverse
transform of the fixed pose `(0.123, 0.456, -8.0)` — rotation transposed,
translation negated — with a zero (black) background color. -/
theorem camera_model_spec (w h : ℝ) :
    (∀ fov d : ℝ, fov_to_focal fov d = 0.5 * d / Real.tan (0.5 * fov)) ∧
    (basic_camera w h).focal = 0.5 * w / Real.tan (0.5 * (Real.pi / 2)) ∧
    (basic_camera w h).viewmat = viewFromSpec cameraPos ∧
    (basic_camera w h).background = fun _ => 0 := by
  refine ⟨fun fov d => rfl, rfl, ?_, rfl⟩
  ext i j
  fin_cases i <;> fin_cases j <;>
    simp +decide [basic_camera, viewFromSpec, homRigid, cameraPos,
      Matrix.one_apply, Matrix.vecHead, Matrix.vecTail]

/-- Claim C3: the benchmark path clamps the per-splat color to non-negative
values (`max (sh + 0.5) 0`) while the fixture path leaves it unclamped
(`sh + 0.5`, which may be negative, e.g. at sh-value `-1`); the two paths
differ in exactly this clamp. -/
theorem color_clamp_asymmetry :
    (∀ x : ℝ, bench_color_post x = max (fixture_color_post x) 0) ∧
    (∀ x : ℝ, 0 ≤ bench_color_post x) ∧
    fixture_color_post (-1) = -(1 / 2) ∧
    bench_color_post (-1) = 0 := by
  refine ⟨fun x => rfl, fun x => le_max_right _ _, by norm_num [fixture_color_post], ?_⟩
  rw [bench_color_post]
  norm_num

/-- Claim C5: opacity draws of the `tiny` and `basic` constructors lie in
`[0.5, 1]`, draws of the `mix` constructor lie in `[0, 1)` with no lower floor,
and the sigmoid of any drawn value — the opacity actually passed to the
backend — lies strictly in `(0, 1)`. -/
theorem opacity_ranges (u : ℝ) (h0 : 0 ≤ u) (h1 : u < 1) :
    (0.5 ≤ tiny_opacity u ∧ tiny_opacity u ≤ 1) ∧
    (0.5 ≤ basic_opacity u ∧ basic_opacity u ≤ 1) ∧
    (0 ≤ mix_opacity u ∧ mix_opacity u < 1) ∧
    (∀ y : ℝ, 0 ≤ y → y < 1 → mix_opacity y = y) ∧
    (∀ x : ℝ, 0 < sigmoid x ∧ sigmoid x < 1) := by
  have hs : ∀ x : ℝ, 0 < sigmoid x ∧ sigmoid x < 1 := by
    intro x
    have he : 0 < Real.exp (-x) := Real.exp_pos _
    refine ⟨div_pos one_pos (by linarith), ?_⟩
    rw [sigmoid, div_lt_one (by linarith)]
    linarith
  refine ⟨⟨?_, ?_⟩, ⟨?_, ?_⟩, ⟨h0, h1⟩, fun y _ _ => rfl, hs⟩ <;>
    simp only [tiny_opacity, basic_opacity] <;> linarith

/-- Witness for `opacity_ranges` at the draw `u = 0`. -/
theorem opacity_ranges_witness :
    (0 ≤ (0 : ℝ)) ∧ ((0 : ℝ) < 1) ∧
    ((0.5 ≤ tiny_opacity 0 ∧ tiny_opacity 0 ≤ 1) ∧
     (0.5 ≤ basic_opacity 0 ∧ basic_opacity 0 ≤ 1) ∧
     (0 ≤ mix_opacity 0 ∧ mix_opacity 0 < 1) ∧
     (∀ y : ℝ, 0 ≤ y → y < 1 → mix_opacity y = y) ∧
     (∀ x : ℝ, 0 < sigmoid x ∧ sigmoid x < 1)) :=
  ⟨le_refl 0, by norm_num, opacity_ranges 0 (le_refl 0) (by norm_num)⟩

/-- Claim C1 (amended): the fixture path L2-normalizes quaternions before the
backend call — every row whose norm is at least `torch.nn.functional.normalize`'s
`eps = 1e-12` (in particular every unit or near-unit row) is passed with norm
exactly 1 — while the benchmark path passes the loaded quaternion rows to the
backend unchanged, with no normalization step. -/
theorem quat_normalization_per_path (q : Quat) (h : normalize_eps ≤ q.norm) :
    (f_normalize q).norm = 1 ∧
    (∀ (pool : SplatPool) (frac : ℚ) (mult : ℝ),
      internal_iter_quats_arg pool frac mult =
        pool.quats.take (numPoints pool.means.length frac) ∧
      ∀ i d, i < numPoints pool.means.length frac →
        (internal_iter_quats_arg pool frac mult).getD i d = pool.quats.getD i d) := by
  constructor
  · have hq : 0 < q.norm := lt_of_lt_of_le (by norm_num [normalize_eps]) h
    have hqs : 0 < q.normSq := by
      have := q.norm_sq_eq
      nlinarith
    have hmax : max q.norm normalize_eps = q.norm := max_eq_left h
    have hns : (f_normalize q).normSq = 1 := by
      rw [f_normalize]
      simp only [Quat.normSq, hmax]
      rw [div_pow, div_pow, div_pow, div_pow, div_add_div_same, div_add_div_same,
        div_add_div_same, q.norm_sq_eq]
      exact div_self (ne_of_gt hqs)
    rw [Quat.norm, hns, Real.sqrt_one]
  · intro pool frac mult
    exact ⟨rfl, fun i d hi => take_getD _ _ _ _ hi⟩

/-- Witness for `quat_normalization_per_path` at the unit row `(1,0,0,0)`. -/
theorem quat_normalization_per_path_witness :
    normalize_eps ≤ Quat.norm ⟨1, 0, 0, 0⟩ ∧
    ((f_normalize ⟨1, 0, 0, 0⟩).norm = 1 ∧
     (∀ (pool : SplatPool) (frac : ℚ) (mult : ℝ),
       internal_iter_quats_arg pool frac mult =
         pool.quats.take (numPoints pool.means.length frac) ∧
       ∀ i d, i < numPoints pool.means.length frac →
         (internal_iter_quats_arg pool frac mult).getD i d = pool.quats.getD i d)) := by
  have hn : Quat.norm ⟨1, 0, 0, 0⟩ = 1 := by
    rw [Quat.norm, Quat.normSq]
    norm_num
  have h : normalize_eps ≤ Quat.norm ⟨1, 0, 0, 0⟩ := by
    rw [hn, normalize_eps]; norm_num
  exact ⟨h, quat_normalization_per_path ⟨1, 0, 0, 0⟩ h⟩

/-- A zero default row. -/
def q0 : Quat := ⟨0, 0, 0, 0⟩

/-- A stored pool row of norm 2. -/
def badQuat : Quat := ⟨2, 0, 0, 0⟩

/-- A one-row splat pool whose quaternion row is not unit-norm. -/
def benchPoolWitness : SplatPool :=
  { means := [(0, 0, 0)]
    scales := [(1, 1, 1)]
    coeffs := [fun _ => (0, 0, 0)]
    quats := [badQuat]
    opacities := [0] }

/-- Counterexample to claim C1 as stated: at density 1 on `benchPoolWitness`,
the benchmark path hands the backend the stored row `(2,0,0,0)` itself, whose
L2 norm is `2 ≠ 1` — quaternions are not normalized before the benchmark
backend call. -/
theorem bench_quats_unnormalized_counterexample :
    (internal_iter_quats_arg benchPoolWitness 1 1).getD 0 q0 = badQuat ∧
    Quat.norm badQuat = 2 ∧ (2 : ℝ) ≠ 1 := by
  refine ⟨?_, ?_, by norm_num⟩
  · simp [internal_iter_quats_arg, load_bench_tensors, numPoints, benchPoolWitness]
  have h4 : Quat.normSq badQuat = 4 := by
    rw [Quat.normSq, badQuat]; norm_num
  rw [Quat.norm, h4, show (4 : ℝ) = 2 ^ 2 by norm_num,
    Real.sqrt_sq (by norm_num : (0 : ℝ) ≤ 2)]

/-- Claim C10: the fixture path evaluates spherical harmonics at degree 3, so
all 16 basis slots appear in its color, while the benchmark path evaluates at
degree 0: its color equals `max (Y₀⁰ · coeff₀ + 0.5) 0`, a function of the
degree-0 coefficient alone, independent of the view direction, of the higher
basis functions, and of coefficients 1 through 15. -/
theorem sh_degree_asymmetry (higher higher2 : ℕ → (ℝ × ℝ × ℝ) → ℝ)
    (dir dir2 : ℝ × ℝ × ℝ) (coeffs coeffs2 : ℕ → ℝ)
    (h : coeffs 0 = coeffs2 0) :
    bench_colors higher dir coeffs = bench_colors higher2 dir2 coeffs2 ∧
    bench_colors higher dir coeffs = max (shC0 * coeffs 0 + 0.5) 0 ∧
    fixture_colors higher dir coeffs =
      (∑ i in Finset.range 16, (if i = 0 then shC0 else higher i dir) * coeffs i)
        + 0.5 := by
  have hb : ∀ (hi : ℕ → (ℝ × ℝ × ℝ) → ℝ) (d : ℝ × ℝ × ℝ) (c : ℕ → ℝ),
      bench_colors hi d c = max (shC0 * c 0 + 0.5) 0 := by
    intro hi d c
    rw [bench_colors, bench_color_post, spherical_harmonics]
    norm_num
  refine ⟨?_, hb higher dir coeffs, ?_⟩
  · rw [hb higher dir coeffs, hb higher2 dir2 coeffs2, h]
  · rw [fixture_colors, fixture_color_post, spherical_harmonics]
    norm_num

/-- Witness for `sh_degree_asymmetry` with vanishing higher basis functions,
the directions `(0,0,0)` and `(1,0,0)`, and all coefficients equal to 1. -/
theorem sh_degree_asymmetry_witness :
    (fun _ : ℕ => (1 : ℝ)) 0 = (fun _ : ℕ => (1 : ℝ)) 0 ∧
    (bench_colors (fun _ _ => 0) (0, 0, 0) (fun _ => 1) =
        bench_colors (fun _ _ => 0) (1, 0, 0) (fun _ => 1) ∧
     bench_colors (fun _ _ => 0) (0, 0, 0) (fun _ => 1) =
        max (shC0 * (fun _ : ℕ => (1 : ℝ)) 0 + 0.5) 0 ∧
     fixture_colors (fun _ _ => 0) (0, 0, 0) (fun _ => 1) =
       (∑ i in Finset.range 16,
          (if i = 0 then shC0 else (fun _ _ => (0 : ℝ)) i ((0 : ℝ), (0 : ℝ), (0 : ℝ)))
            * (fun _ : ℕ => (1 : ℝ)) i) + 0.5) :=
  ⟨rfl, sh_degree_asymmetry (fun _ _ => 0) (fun _ _ => 0) (0, 0, 0) (1, 0, 0)
    (fun _ => 1) (fun _ => 1) rfl⟩

/-- Claim C4: because the per-splat view direction is detached before the
spherical-harmonic evaluation, the fixture color has zero derivative along any
perturbation of the means: its tangent equals the coefficient-path term alone
for every means tangent, so the loss derivative along a means perturbation
(the forward-mode reading of `v_means`) equals the direct rasterization term
`∑ jm·δm` — exactly what it would be were the color a constant — and color
gradients attribute only to the SH coefficients. -/
theorem detached_dirs_block_color_gradient
    (f : (Fin 3 → ℝ) → (Fin 16 → ℝ) → ℝ) (jdir : Fin 3 → ℝ) (jcoef : Fin 16 → ℝ)
    (g : (Fin 3 → ℝ) → ℝ → ℝ) (jm : Fin 3 → ℝ) (jcol : ℝ)
    (mval mtan : Fin 3 → ℝ) (eye : Fin 3 → ℝ)
    (cval ctan : Fin 16 → ℝ) :
    (fixture_colors_dual f jdir jcoef (fun i => ⟨mval i, mtan i⟩) eye
        (fun i => ⟨cval i, 0⟩)).tan = 0 ∧
    (fixture_colors_dual f jdir jcoef (fun i => ⟨mval i, mtan i⟩) eye
        (fun i => ⟨cval i, ctan i⟩)).tan = ∑ i, jcoef i * ctan i ∧
    (fixture_loss_dual f jdir jcoef g jm jcol (fun i => ⟨mval i, mtan i⟩) eye
        (fun i => ⟨cval i, 0⟩)).tan = ∑ i, jm i * mtan i ∧
    (fixture_loss_dual f jdir jcoef g jm jcol (fun i => ⟨mval i, mtan i⟩) eye
        (fun i => ⟨cval i, 0⟩)).tan =
      (lossPrimDual g jm jcol (fun i => ⟨mval i, mtan i⟩)
        (Dual.const (fixture_colors_dual f jdir jcoef (fun i => ⟨mval i, mtan i⟩)
            eye (fun i => ⟨cval i, 0⟩)).val)).tan := by
  have htan : ∀ ct : Fin 16 → ℝ,
      (fixture_colors_dual f jdir jcoef (fun i => ⟨mval i, mtan i⟩) eye
        (fun i => ⟨cval i, ct i⟩)).tan = ∑ i, jcoef i * ct i := by
    intro ct
    simp [fixture_colors_dual, shPrimDual, Dual.add, Dual.const, Dual.sub,
      Dual.detach]
  have hz : (fixture_colors_dual f jdir jcoef (fun i => ⟨mval i, mtan i⟩) eye
      (fun i => ⟨cval i, 0⟩)).tan = 0 := by
    rw [htan]
    simp
  refine ⟨hz, htan ctan, ?_, ?_⟩
  · rw [fixture_loss_dual, lossPrimDual]
    simp [hz]
  · rw [fixture_loss_dual, lossPrimDual, lossPrimDual]
    simp [hz, Dual.const]

/-- Claim C9: the fixture loss is the mean squared error between the 4-channel
rendered output (color concatenated with alpha) and the fixed 4-channel target
whose alpha channel is exactly zero at every pixel, and the scalar from which
the backward pass is triggered is exactly this loss. -/
theorem fixture_loss_is_mse_vs_zero_alpha_target (rgb : List Px3)
    (out : List Px4) (h : out.length = rgb.length) :
    (∀ p ∈ crab_target rgb, p.a = 0) ∧
    fixture_loss out (crab_target rgb) =
      mseSpec (flat4 out) (flat4 (crab_target rgb)) ∧
    (∀ rc ra, execute_test_backward_scalar rc ra rgb =
      fixture_loss (concat_rgba rc ra) (crab_target rgb)) := by
  have hlen : (crab_target rgb).length = rgb.length := by
    simp [crab_target]
  refine ⟨?_, ?_, fun rc ra => rfl⟩
  · intro p hp
    rw [crab_target, List.mem_map] at hp
    obtain ⟨q, _, rfl⟩ := hp
    rfl
  · rw [mseSpec, flat4_zip_sum out (crab_target rgb) (by rw [h, hlen]),
      flat4_length, fixture_loss]
    push_cast
    ring

/-- Witness for `fixture_loss_is_mse_vs_zero_alpha_target` on a one-pixel
image. -/
theorem fixture_loss_is_mse_witness :
    ([(⟨0, 0, 0, 0⟩ : Px4)].length = [(⟨1, 0, 0⟩ : Px3)].length) ∧
    ((∀ p ∈ crab_target [⟨1, 0, 0⟩], p.a = 0) ∧
     fixture_loss [⟨0, 0, 0, 0⟩] (crab_target [⟨1, 0, 0⟩]) =
       mseSpec (flat4 [⟨0, 0, 0, 0⟩]) (flat4 (crab_target [⟨1, 0, 0⟩])) ∧
     (∀ rc ra, execute_test_backward_scalar rc ra [⟨1, 0, 0⟩] =
       fixture_loss (concat_rgba rc ra) (crab_target [⟨1, 0, 0⟩]))) :=
  ⟨rfl, fixture_loss_is_mse_vs_zero_alpha_target [⟨1, 0, 0⟩] [⟨0, 0, 0, 0⟩] rfl⟩

/-- Claim C6: the reported statistic of a benchmark configuration times a
batch of exactly 4 internal iterations, with the device synchronization
strictly before the clock is stopped, repeats the timed batch exactly 40
times, and reports the standard statistical median of the 40 durations — for
the even count 40, the mean of the two middle values of the sorted list. -/
theorem bench_timing_protocol (sampleTime : ℕ → ℚ) :
    TARGET_SAMPLE_COUNT = 40 ∧
    INTERNAL_ITERS = 4 ∧
    measure_iter_events.count .internalIt = 4 ∧
    measure_iter_events.findIdx (· == TimedEvent.deviceSync) <
      measure_iter_events.findIdx (· == TimedEvent.clockStop) ∧
    measure_iter_events.count .deviceSync = 1 ∧
    measure_iter_events.count .clockStop = 1 ∧
    ((List.range TARGET_SAMPLE_COUNT).map sampleTime).length = 40 ∧
    bench_general_stat sampleTime =
      ((List.insertionSort (· ≤ ·) ((List.range TARGET_SAMPLE_COUNT).map
          sampleTime)).getD 19 0 +
       (List.insertionSort (· ≤ ·) ((List.range TARGET_SAMPLE_COUNT).map
          sampleTime)).getD 20 0) / 2 := by
  have hlen : ((List.range TARGET_SAMPLE_COUNT).map sampleTime).length = 40 := by
    simp [TARGET_SAMPLE_COUNT]
  refine ⟨rfl, rfl, by decide, by decide, by decide, by decide, hlen, ?_⟩
  rw [bench_general_stat, npMedian, hlen, if_neg (by norm_num : ¬(40 % 2 = 1))]

lemma measure_iter_grads_false (dg x : GradBufs) :
    measure_iter_grads false dg x = x := rfl

lemma measure_iter_grads_true (dg x : GradBufs) :
    measure_iter_grads true dg x = x.add (GradBufs.smulN INTERNAL_ITERS dg) := by
  have h4 : measure_iter_grads true dg x = (((x.add dg).add dg).add dg).add dg :=
    rfl
  rw [h4]
  cases x
  cases dg
  simp only [GradBufs.add, GradBufs.smulN, GradBufs.mk.injEq, INTERNAL_ITERS]
  refine ⟨?_, ?_, ?_, ?_, ?_⟩ <;> push_cast <;> ring

lemma samples_grads_false (dg g : GradBufs) (k : ℕ) :
    samples_grads false dg g k = g := by
  induction k with
  | zero => rfl
  | succ n ih =>
    rw [samples_grads, Function.iterate_succ_apply', ← samples_grads, ih,
      measure_iter_grads_false]

lemma samples_grads_true (dg g : GradBufs) (k : ℕ) :
    samples_grads true dg g k = g.add (GradBufs.smulN (INTERNAL_ITERS * k) dg) := by
  induction k with
  | zero =>
    rw [samples_grads, Function.iterate_zero_apply]
    cases g
    cases dg
    simp [GradBufs.add, GradBufs.smulN]
  | succ n ih =>
    rw [samples_grads, Function.iterate_succ_apply', ← samples_grads, ih,
      measure_iter_grads_true]
    cases g
    cases dg
    simp only [GradBufs.add, GradBufs.smulN, GradBufs.mk.injEq, INTERNAL_ITERS]
    refine ⟨?_, ?_, ?_, ?_, ?_⟩ <;> push_cast <;> ring

/-- Counterexample to claim C2 as stated: with backward mode on and any
nonzero backend gradient contribution (here 1 in every buffer), a single
timed sample changes the shared gradient buffers — state observable by every
later sample — and the source tensors are loaded once per configuration, not
once per each of the 40 samples. -/
theorem bench_sample_state_counterexample :
    measure_iter_grads true ⟨1, 1, 1, 1, 1⟩ ⟨0, 0, 0, 0, 0⟩ ≠ ⟨0, 0, 0, 0, 0⟩ ∧
    (measure_iter_grads true ⟨1, 1, 1, 1, 1⟩ ⟨0, 0, 0, 0, 0⟩).means = 4 ∧
    bench_general_ops.count .loadTensors = 1 ∧
    TARGET_SAMPLE_COUNT = 40 ∧ (1 : ℕ) ≠ 40 := by
  have h : measure_iter_grads true ⟨1, 1, 1, 1, 1⟩ ⟨0, 0, 0, 0, 0⟩ =
      ⟨4, 4, 4, 4, 4⟩ := by
    rw [measure_iter_grads_true]
    simp only [GradBufs.add, GradBufs.smulN, INTERNAL_ITERS, GradBufs.mk.injEq]
    norm_num
  refine ⟨?_, by rw [h], by decide, rfl, by decide⟩
  rw [h]
  intro hc
  have hm := congrArg GradBufs.means hc
  norm_num at hm

/-- Claim C2 (amended): the source tensors are loaded and sliced once per
configuration — not once per sample — and shared by all 40 timed samples; in
forward-only mode no sample changes any state, while in backward mode each
sample adds 4 backward passes worth of backend gradient into the shared
`.grad` buffers, state observable by all subsequent samples. -/
theorem bench_sample_state_effects (dg g : GradBufs) (k : ℕ) :
    samples_grads false dg g k = g ∧
    samples_grads true dg g k = g.add (GradBufs.smulN (INTERNAL_ITERS * k) dg) ∧
    bench_general_ops.count .loadTensors = 1 ∧
    bench_general_ops.count .timedSample = TARGET_SAMPLE_COUNT :=
  ⟨samples_grads_false dg g k, samples_grads_true dg g k, by decide, by decide⟩

/-- Claim C7: the sweep uses the fixed strictly increasing density list of 10
points; each density slices exactly the first `⌊poolSize · density⌋` rows of
every pool array (the dense regime scaling the sliced means by `0.25`), and
every configuration label, in the source order `fwd_base, fwd_dense, fwd_hd,
bwd_base, bwd_dense, bwd_hd`, maps to the ordered list of the 10 median
statistics, one per density point in order. -/
theorem bench_sweep_structure (timeOf : ℚ → ℝ → ℕ → ℕ → Bool → ℕ → ℚ)
    (pool : SplatPool) (frac : ℚ) (mult : ℝ) (N : ℕ)
    (hm : pool.means.length = N) (ho : pool.opacities.length = N)
    (hf1 : frac ≤ 1) :
    List.Chain' (· < ·) BENCH_DENSITIES ∧
    BENCH_DENSITIES.length = 10 ∧
    numPoints N frac ≤ N ∧
    (load_bench_tensors pool frac mult).means =
      (pool.means.take (numPoints N frac)).map (smul3 mult) ∧
    (load_bench_tensors pool frac mult).scales =
      pool.scales.take (numPoints N frac) ∧
    (load_bench_tensors pool frac mult).coeffs =
      pool.coeffs.take (numPoints N frac) ∧
    (load_bench_tensors pool frac mult).quats =
      pool.quats.take (numPoints N frac) ∧
    (load_bench_tensors pool frac mult).opacities =
      pool.opacities.take (numPoints N frac) ∧
    (load_bench_tensors pool frac mult).opacities.length = numPoints N frac ∧
    (load_bench_tensors pool frac DENSE_MULT).means =
      (pool.means.take (numPoints N frac)).map (smul3 0.25) ∧
    (bench_times timeOf).map Prod.fst =
      ["fwd_base", "fwd_dense", "fwd_hd", "bwd_base", "bwd_dense", "bwd_hd"] ∧
    (∀ p ∈ bench_times timeOf, p.2.length = 10) ∧
    (∀ p ∈ bench_times timeOf, ∃ m wd ht gr,
      p.2 = BENCH_DENSITIES.map fun d => bench_general_stat (timeOf d m wd ht gr)) := by
  subst hm
  have hle : numPoints pool.means.length frac ≤ pool.means.length := by
    rw [numPoints]
    have h1 : (pool.means.length : ℚ) * frac ≤ (pool.means.length : ℚ) :=
      mul_le_of_le_one_right (by positivity) hf1
    have h2 : ⌊(pool.means.length : ℚ) * frac⌋ ≤ (pool.means.length : ℤ) := by
      calc ⌊(pool.means.length : ℚ) * frac⌋ ≤ ⌊(pool.means.length : ℚ)⌋ :=
            Int.floor_le_floor h1
        _ = (pool.means.length : ℤ) := Int.floor_natCast _
    calc (⌊(pool.means.length : ℚ) * frac⌋).toNat
        ≤ ((pool.means.length : ℤ)).toNat := Int.toNat_le_toNat h2
      _ = pool.means.length := Int.toNat_natCast _
  refine ⟨?_, rfl, hle, rfl, rfl, rfl, rfl, rfl, ?_, rfl, rfl, ?_, ?_⟩
  · simp only [BENCH_DENSITIES, List.chain'_cons, List.chain'_singleton,
      and_true]
    norm_num
  · show (pool.opacities.take (numPoints pool.means.length frac)).length =
      numPoints pool.means.length frac
    rw [List.length_take, ho]
    exact min_eq_left hle
  · intro p hp
    fin_cases hp <;> simp [BENCH_DENSITIES]
  · intro p hp
    fin_cases hp
    · exact ⟨1, 512, 512, false, rfl⟩
    · exact ⟨DENSE_MULT, 512, 512, false, rfl⟩
    · exact ⟨1, 1024, 1024, false, rfl⟩
    · exact ⟨1, 512, 512, true, rfl⟩
    · exact ⟨DENSE_MULT, 512, 512, true, rfl⟩
    · exact ⟨1, 1024, 1024, true, rfl⟩

/-- The all-zero timing function, for exercising the sweep. -/
def zeroTime : ℚ → ℝ → ℕ → ℕ → Bool → ℕ → ℚ := fun _ _ _ _ _ _ => 0

/-- A concrete two-row pool for exercising the sweep slicing. -/
def sweepPool : SplatPool :=
  { means := [(1, 2, 3), (4, 5, 6)]
    scales := [(1, 1, 1), (1, 1, 1)]
    coeffs := [fun _ => (0, 0, 0), fun _ => (0, 0, 0)]
    quats := [⟨1, 0, 0, 0⟩, ⟨0, 1, 0, 0⟩]
    opacities := [0, 1] }

/-- Witness for `bench_sweep_structure` at the two-row pool, density `1/2`,
mean multiplier 1, and the all-zero timing function. -/
theorem bench_sweep_structure_witness :
    sweepPool.means.length = 2 ∧ sweepPool.opacities.length = 2 ∧
    (1 / 2 : ℚ) ≤ 1 ∧
    (List.Chain' (· < ·) BENCH_DENSITIES ∧
     BENCH_DENSITIES.length = 10 ∧
     numPoints 2 (1 / 2) ≤ 2 ∧
     (load_bench_tensors sweepPool (1 / 2) 1).means =
       (sweepPool.means.take (numPoints 2 (1 / 2))).map (smul3 1) ∧
     (load_bench_tensors sweepPool (1 / 2) 1).scales =
       sweepPool.scales.take (numPoints 2 (1 / 2)) ∧
     (load_bench_tensors sweepPool (1 / 2) 1).coeffs =
       sweepPool.coeffs.take (numPoints 2 (1 / 2)) ∧
     (load_bench_tensors sweepPool (1 / 2) 1).quats =
       sweepPool.quats.take (numPoints 2 (1 / 2)) ∧
     (load_bench_tensors sweepPool (1 / 2) 1).opacities =
       sweepPool.opacities.take (numPoints 2 (1 / 2)) ∧
     (load_bench_tensors sweepPool (1 / 2) 1).opacities.length =
       numPoints 2 (1 / 2) ∧
     (load_bench_tensors sweepPool (1 / 2) DENSE_MULT).means =
       (sweepPool.means.take (numPoints 2 (1 / 2))).map (smul3 0.25) ∧
     (bench_times zeroTime).map Prod.fst =
       ["fwd_base", "fwd_dense", "fwd_hd", "bwd_base", "bwd_dense", "bwd_hd"] ∧
     (∀ p ∈ bench_times zeroTime, p.2.length = 10) ∧
     (∀ p ∈ bench_times zeroTime, ∃ m wd ht gr,
       p.2 = BENCH_DENSITIES.map fun d =>
         bench_general_stat (zeroTime d m wd ht gr))) :=
  ⟨rfl, rfl, by norm_num,
    bench_sweep_structure zeroTime sweepPool (1 / 2) 1 2 rfl rfl (by norm_num)⟩
